import Mathlib

/-!
Verification of the PSER WhatsApp/web chatbot (Twilio + OpenAI + RAG).

This file shallowly embeds the Python modules `app/cookies_utils.py`,
`app/whatsapp_service.py`, `app/openai_utils.py`, `app/rag_utils.py` and
`app/web_service.py`.  Python strings are modelled as `List Char` (`PyStr`),
Redis as a partial map from key to stored string, and every external
provider call (Google Translate, LLM completions, FAISS similarity search)
as an oracle function passed in as an argument; an oracle result of `none`
(or `Except.error`) models the provider raising an exception, which the
Python code catches where a `try/except` block is present in the source.
-/

set_option maxRecDepth 10000

/-- Python strings, modelled as lists of characters. -/
abbrev PyStr := List Char

/-- Whitespace set used by Python `str.strip()` (ASCII part). -/
def isPySpace (c : Char) : Bool :=
  (c = ' ') || (c = '\t') || (c = '\n') || (c = '\r') || (c = '\x0b') || (c = '\x0c')

/-- Model of Python `str.strip()`: drop leading and trailing whitespace. -/
def pyStrip (s : PyStr) : PyStr :=
  ((s.dropWhile isPySpace).reverse.dropWhile isPySpace).reverse

/-- Model of Python `str.capitalize()`: upper-case the first character,
lower-case the rest. -/
def pyCapitalize (s : PyStr) : PyStr :=
  match s with
  | [] => []
  | c :: cs => c.toUpper :: cs.map Char.toLower

/-- Python truthiness of an optional string (`None` and `""` are falsy). -/
def pyTruthy (o : Option PyStr) : Bool :=
  match o with
  | none => false
  | some s => !s.isEmpty

/-- Python `l[-n:]`: the last `n` elements of a list (all of them when the
list is shorter). -/
def takeLast (n : Nat) (l : List α) : List α :=
  l.drop (l.length - n)

/- ===================== whatsapp_service._extract_final_answer ========== -/

/-- The `Final Answer:` marker used by `_extract_final_answer` in
`whatsapp_service.py` and `web_service.py`. -/
def finalMarker : PyStr := "Final Answer:".data

/-- Model of Python `response_text.split("Final Answer:", 1)` restricted to
the information the caller uses: `none` when the marker does not occur
(Python `marker in response_text` is false), otherwise the text before and
after the first occurrence of the marker. -/
def splitOnceFinal : PyStr → Option (PyStr × PyStr)
  | [] => none
  | c :: cs =>
    if finalMarker.isPrefixOf (c :: cs) then
      some ([], (c :: cs).drop finalMarker.length)
    else
      match splitOnceFinal cs with
      | none => none
      | some (pre, post) => some (c :: pre, post)

/-- `_extract_final_answer` from `whatsapp_service.py` (line 9) and
`web_service.py` (line 4): return the stripped text after the first
`Final Answer:` marker when present, else the stripped input. -/
def extract_final_answer (s : PyStr) : PyStr :=
  match splitOnceFinal s with
  | some (_, post) => pyStrip post
  | none => pyStrip s

/- ===================== openai_utils.translate_text ===================== -/

/-- `translate_text` from `openai_utils.py` (line 173).  `projectId` models
the `GOOGLE_PROJECT_ID` environment variable (`none` = unset, i.e. no
provider configured); `prov text target` models the Google Translate call,
with `none` standing for a raised exception (caught by the `try/except`)
and `some t` for `response.translations[0].translated_text`. -/
def translate_text (projectId : Option PyStr) (prov : PyStr → PyStr → Option PyStr)
    (text target : PyStr) : PyStr :=
  if text = [] then []
  else
    match projectId with
    | none => text
    | some _ =>
      match prov text target with
      | none => text
      | some t => if t = [] then text else pyStrip t

/- ============ openai_utils.translate_back_to_source (line 235) ========= -/

/-- `translate_back_to_source` from `openai_utils.py` (line 235): identity on
empty text, on an absent/empty/`"en"` source language code, otherwise a
provider translation via `translate_text`. -/
def translate_back_to_source (projectId : Option PyStr)
    (prov : PyStr → PyStr → Option PyStr)
    (text : PyStr) (source_language_code : Option PyStr) : PyStr :=
  if text = [] then []
  else
    match source_language_code with
    | none => text
    | some c =>
      if c = [] then text
      else if c = "en".data then text
      else translate_text projectId prov text c

/-- `translate_back_to_source_gpt` from `openai_utils.py` (line 242).
`llm question answer` models the `completion` call on the fixed translation
messages; `Except.error ()` is a raised exception, `.ok content` is
`resp.choices[0].message.content` (with `none` for a null content, mapped to
`""` by the `or ""` in the source). -/
def translate_back_to_source_gpt
    (llm : PyStr → PyStr → Except Unit (Option PyStr))
    (projectId : Option PyStr) (prov : PyStr → PyStr → Option PyStr)
    (question answer : PyStr) (source_language_code : Option PyStr) : PyStr :=
  if answer = [] then []
  else
    match source_language_code with
    | none => answer
    | some c =>
      if c = [] then answer
      else if c = "en".data then answer
      else
        match llm question answer with
        | .error _ => translate_text projectId prov answer c
        | .ok content =>
          let out := pyStrip (content.getD [])
          if out = [] then translate_text projectId prov answer c else out

/- ======== openai_utils.detect_and_translate_to_english (line 205) ====== -/

/-- `detect_and_translate_to_english` from `openai_utils.py` (line 205).
`useGptForward` models `USE_GPT_FORWARD_TRANSLATION`; `detect text` models
the result of `detect_language` (which itself swallows every provider error
and returns `None`, modelled by the oracle returning `none`); `gptFwd` models
the forward-translation `completion` call inside the `try` block, with
`.error` standing for a raised exception (caught, falling back to
`translate_text`). -/
def detect_and_translate_to_english (useGptForward : Bool)
    (detect : PyStr → Option PyStr)
    (gptFwd : PyStr → Except Unit PyStr)
    (projectId : Option PyStr) (prov : PyStr → PyStr → Option PyStr)
    (text : PyStr) : PyStr × Option PyStr :=
  let code := (detect text).getD ("ur".data)
  if code = "en".data then (text, some code)
  else if useGptForward then
    match gptFwd text with
    | .ok t => (pyStrip t, some code)
    | .error _ => (translate_text projectId prov text ("en".data), some code)
  else (translate_text projectId prov text ("en".data), some code)

/-- `_safe_detect_translate_to_english` from `whatsapp_service.py` (line 17):
calls `detect_and_translate_to_english` inside `try/except` with fallback
`(text, "en")`.  In this model the wrapped call is total — every provider
call inside it already catches its own exceptions — so the wrapper reduces
to the direct call. -/
def safe_detect_translate_to_english (useGptForward : Bool)
    (detect : PyStr → Option PyStr)
    (gptFwd : PyStr → Except Unit PyStr)
    (projectId : Option PyStr) (prov : PyStr → PyStr → Option PyStr)
    (text : PyStr) : PyStr × Option PyStr :=
  detect_and_translate_to_english useGptForward detect gptFwd projectId prov text

/- ============= openai_utils.summarise_conversation (line 82) =========== -/

/-- A history item as consumed by `summarise_conversation`: a Python dict
that may carry `role`/`content` and/or `user_input`/`bot_response` keys
(`none` = key absent). -/
structure SummItem where
  role : Option PyStr
  content : Option PyStr
  user_input : Option PyStr
  bot_response : Option PyStr
deriving DecidableEq, Repr

/-- The lines contributed by one history item in `summarise_conversation`
(`openai_utils.py` lines 89-98): a `"<Role>: <content>"` line when both
`role` and `content` are truthy, otherwise a `"User: ..."` line when the
`user_input` key is present and an `"Assistant: ..."` line when the
`bot_response` key is present. -/
def renderItem (it : SummItem) : List PyStr :=
  if pyTruthy it.role && pyTruthy it.content then
    [pyCapitalize (it.role.getD []) ++ ':' :: ' ' :: it.content.getD []]
  else
    (match it.user_input with
     | some u => ["User: ".data ++ u]
     | none => []) ++
    (match it.bot_response with
     | some b => ["Assistant: ".data ++ b]
     | none => [])

/-- Flatten the lines of a list of history items (the `conversation_lines`
loop of `summarise_conversation`). -/
def renderLines : List SummItem → List PyStr
  | [] => []
  | it :: rest => renderItem it ++ renderLines rest

/-- `summarise_conversation` from `openai_utils.py` (line 82).  `llm block`
models `gpt_without_functions` on model `"gpt-3.5-turbo-0125"` (a member of
`SUPPORTED_MODELS`, so the completion call is performed) followed by
`.choices[0].message.content`; the result pairs the returned text with the
list of conversation blocks sent to the LLM (empty = no LLM call). -/
def summarise_conversation (llm : PyStr → PyStr) (history : List SummItem) :
    PyStr × List PyStr :=
  if history.isEmpty then ("No prior conversation.".data, [])
  else
    let conversation_lines := renderLines (takeLast 70 history)
    if conversation_lines.isEmpty then ("No prior conversation.".data, [])
    else
      let conversation := List.intercalate "\n".data conversation_lines
      (pyStrip (llm conversation), [conversation])

/- ======================= rag_utils (answer pipeline) =================== -/

/-- A chat turn as produced by `process_whatsapp_message` and consumed by
`rag_utils`: a dict with `role`, `content`, and optionally `raw_response`. -/
structure Turn where
  role : PyStr
  content : PyStr
  raw_response : Option PyStr
deriving DecidableEq, Repr

/-- External calls made by the answer pipeline of `rag_utils.py`: a
contextualizer-chain LLM invocation, a vector-store similarity search, and
a RAG-chain LLM invocation. -/
inductive RagEvent where
  | ctxCall (chatHistoryText question : PyStr)
  | search (query : PyStr) (k : Nat)
  | chainCall (context historySummary chatHistoryText question : PyStr)
deriving DecidableEq, Repr

/-- `_format_chat_history` from `rag_utils.py` (line 136): the last
`MAX_HISTORY_MESSAGES = 4` turns as `"<Role>: <content>"` lines, or the
`"No previous turns."` sentinel for an absent or empty history. -/
def format_chat_history (history : Option (List Turn)) : PyStr :=
  match history with
  | none => "No previous turns.".data
  | some h =>
    if h.isEmpty then "No previous turns.".data
    else
      List.intercalate "\n".data
        ((takeLast 4 h).map fun m => pyCapitalize m.role ++ ':' :: ' ' :: m.content)

/-- Python truthiness of an optional list (`None` and `[]` are falsy). -/
def pyTruthyList (o : Option (List α)) : Bool :=
  match o with
  | none => false
  | some l => !l.isEmpty

/-- `_contextualize_question` from `rag_utils.py` (line 149).
`contextualizerEnabled` models `ENABLE_CONTEXTUALIZER`; `ctx hist q` models
the contextualizer chain invocation returning `response.content`.  Returns
the (possibly rewritten) question together with the performed calls. -/
def contextualize_question (contextualizerEnabled : Bool)
    (ctx : PyStr → PyStr → PyStr)
    (question : PyStr) (chat_history : Option (List Turn)) :
    PyStr × List RagEvent :=
  if !contextualizerEnabled || !pyTruthyList chat_history then
    (question, [])
  else
    let histText := format_chat_history chat_history
    let rewritten := pyStrip (ctx histText question)
    (if rewritten = [] then question else rewritten, [.ctxCall histText question])

/-- `_build_context` from `rag_utils.py` (line 131): concatenate retrieved
chunk texts with a blank-line separator. -/
def build_context (docs : List PyStr) : PyStr :=
  List.intercalate "\n\n".data docs

/-- `DEFAULT_HISTORY_SUMMARY` from `rag_utils.py` (line 31). -/
def DEFAULT_HISTORY_SUMMARY : PyStr := "The user has just started the conversation.".data

/-- `answer_question` from `rag_utils.py` (line 164).  Oracles: `ctx` the
contextualizer chain, `search q k` the FAISS `similarity_search` returning
the page contents of the retrieved documents, `chain ctxt summary hist q`
the RAG chain invocation returning `response.content`.  The result pairs
the returned text with the list of external calls performed (retrieval and
LLM invocations), in order. -/
def answer_question (contextualizerEnabled : Bool)
    (ctx : PyStr → PyStr → PyStr)
    (search : PyStr → Nat → List PyStr)
    (chain : PyStr → PyStr → PyStr → PyStr → PyStr)
    (question : PyStr) (history_summary : Option PyStr)
    (chat_history : Option (List Turn)) : PyStr × List RagEvent :=
  if question = [] then
    ("Final Answer: I didn\x27t receive a question to answer.".data, [])
  else
    let (search_query, ev1) := contextualize_question contextualizerEnabled ctx question chat_history
    let docs := search search_query 3
    let context := build_context docs
    let summary := match history_summary with
      | none => DEFAULT_HISTORY_SUMMARY
      | some s => if s = [] then DEFAULT_HISTORY_SUMMARY else s
    let histText := format_chat_history chat_history
    let response := chain context summary histText question
    (pyStrip response,
     ev1 ++ [.search search_query 3, .chainCall context summary histText question])

/- ================= JSON serialization (cookies_utils) ================== -/

/-- The universe of Python values stored through `cookies_utils` by this
application: a plain string (the inner `json.dumps(history)` produced by
`_save_history`) or a list of chat-turn dicts. -/
inductive PyVal where
  | str (s : PyStr)
  | turns (ts : List Turn)
deriving DecidableEq, Repr

/-- JSON string escaping for one character.  The model escapes exactly the
characters needed for injectivity (`\` and `"`); the Python `json.dumps`
additionally escapes control and non-ASCII characters, which does not
affect the round-trip behaviour modelled here. -/
def escChar (c : Char) : PyStr :=
  if c = '\\' then ['\\', '\\']
  else if c = '"' then ['\\', '"']
  else [c]

/-- JSON string-body escaping. -/
def escBody : PyStr → PyStr
  | [] => []
  | c :: cs => escChar c ++ escBody cs

/-- A JSON string literal: `"` body `"`. -/
def encStr (s : PyStr) : PyStr :=
  '"' :: (escBody s ++ ['"'])

/-- Literal opening a serialized turn object up to the `role` value
(`json.dumps` default separators: `", "` and `": "`). -/
def objHead : PyStr := '\x7b' :: (encStr "role".data ++ [':', ' '])

/-- Literal between the `role` value and the `content` value. -/
def contentSep : PyStr := ',' :: ' ' :: (encStr "content".data ++ [':', ' '])

/-- Literal between the `content` value and the `raw_response` value. -/
def rawSep : PyStr := ',' :: ' ' :: (encStr "raw_response".data ++ [':', ' '])

/-- Closing brace of a serialized object. -/
def closeObj : PyStr := ['\x7d']

/-- Closing bracket of a serialized list. -/
def closeArr : PyStr := [']']

/-- List item separator `", "`. -/
def commaSp : PyStr := [',', ' ']

/-- `json.dumps` of one chat-turn dict (keys in insertion order:
`role`, `content`, then `raw_response` when present). -/
def encTurn (t : Turn) : PyStr :=
  objHead ++ encStr t.role ++ contentSep ++ encStr t.content ++
    (match t.raw_response with
     | none => closeObj
     | some w => rawSep ++ encStr w ++ closeObj)

/-- `", ".join` of the serialized turns. -/
def joinTurns : List Turn → PyStr
  | [] => []
  | [t] => encTurn t
  | t :: t2 :: ts => encTurn t ++ commaSp ++ joinTurns (t2 :: ts)

/-- `json.dumps` of a list of chat-turn dicts. -/
def encTurns (ts : List Turn) : PyStr :=
  '[' :: (joinTurns ts ++ closeArr)

/-- `json.dumps` on the stored value universe. -/
def dumps : PyVal → PyStr
  | .str s => encStr s
  | .turns ts => encTurns ts

/-- Consume an expected literal from the front of the input. -/
def expectLit (lit s : PyStr) : Option PyStr :=
  if lit.isPrefixOf s then some (s.drop lit.length) else none

/-- Parse the body of a JSON string literal after the opening quote; the
`esc` flag records a pending backslash.  Returns the decoded body and the
remaining input after the closing quote. -/
def parseStrBody : Bool → PyStr → Option (PyStr × PyStr)
  | _, [] => none
  | true, c :: rest =>
    match parseStrBody false rest with
    | none => none
    | some (out, rem) => some (c :: out, rem)
  | false, c :: rest =>
    if c = '"' then some ([], rest)
    else if c = '\\' then parseStrBody true rest
    else
      match parseStrBody false rest with
      | none => none
      | some (out, rem) => some (c :: out, rem)

/-- Parse a JSON string literal. -/
def parseString (s : PyStr) : Option (PyStr × PyStr) :=
  match s with
  | [] => none
  | c :: s1 => if c = '"' then parseStrBody false s1 else none

/-- Parse one serialized chat-turn object. -/
def parseTurn (s : PyStr) : Option (Turn × PyStr) :=
  match expectLit objHead s with
  | none => none
  | some s1 =>
  match parseString s1 with
  | none => none
  | some (role, s2) =>
  match expectLit contentSep s2 with
  | none => none
  | some s3 =>
  match parseString s3 with
  | none => none
  | some (content, s4) =>
  match expectLit closeObj s4 with
  | some s5 => some (⟨role, content, none⟩, s5)
  | none =>
  match expectLit rawSep s4 with
  | none => none
  | some s5 =>
  match parseString s5 with
  | none => none
  | some (raw, s6) =>
  match expectLit closeObj s6 with
  | some s7 => some (⟨role, content, some raw⟩, s7)
  | none => none

/-- Parse a non-empty comma-separated sequence of turn objects followed by
the closing bracket; `fuel` bounds the number of items. -/
def parseTurnItems : Nat → PyStr → Option (List Turn × PyStr)
  | 0, _ => none
  | fuel + 1, s =>
    match parseTurn s with
    | none => none
    | some (t, s1) =>
      match expectLit closeArr s1 with
      | some s2 => some ([t], s2)
      | none =>
        match expectLit commaSp s1 with
        | none => none
        | some s2 =>
          match parseTurnItems fuel s2 with
          | none => none
          | some (ts, s3) => some (t :: ts, s3)

/-- Parse a serialized list of turn objects. -/
def parseTurns (s : PyStr) : Option (List Turn × PyStr) :=
  match s with
  | [] => none
  | c :: s1 =>
    if c = '[' then
      match s1 with
      | [] => none
      | c2 :: s2 => if c2 = ']' then some ([], s2) else parseTurnItems s1.length s1
    else none

/-- `json.loads` on the stored value universe: a full-input parse of either
a string literal or a list of turn objects; `none` models a raised
`JSONDecodeError`. -/
def loads (s : PyStr) : Option PyVal :=
  match s with
  | [] => none
  | c :: s1 =>
    if c = '"' then
      match parseStrBody false s1 with
      | some (out, []) => some (.str out)
      | _ => none
    else if c = '[' then
      match parseTurns (c :: s1) with
      | some (ts, []) => some (.turns ts)
      | _ => none
    else none

/- ================== cookies_utils over a Redis model =================== -/

/-- The Redis model: a partial map from key to stored string, assumed to
faithfully return the written bytes. -/
def Store := PyStr → Option PyStr

/-- Point update of the store (Redis `SET`). -/
def storeSet (st : Store) (k v : PyStr) : Store :=
  fun k2 => if k2 = k then some v else st k2

/-- Point removal from the store (Redis `DELETE`). -/
def storeDel (st : Store) (k : PyStr) : Store :=
  fun k2 => if k2 = k then none else st k2

/-- An operation performed on the key-value store. -/
inductive StoreOp where
  | get (k : PyStr)
  | set (k v : PyStr)
  | del (k : PyStr)
deriving DecidableEq, Repr

/-- `set_cookies` from `cookies_utils.py` (line 5): serialize the value with
`json.dumps` and store it; returns the new store and the performed
operations. -/
def set_cookies (st : Store) (name : PyStr) (value : PyVal) : Store × List StoreOp :=
  (storeSet st name (dumps value), [.set name (dumps value)])

/-- `get_cookies` from `cookies_utils.py` (line 11): fetch the stored string
and `json.loads` it, returning `none` for a missing (or falsy) value;
`Except.error` models `json.loads` raising on undecodable input (there is no
`try/except` in `get_cookies` itself). -/
def get_cookies (st : Store) (name : PyStr) : Except Unit (Option PyVal) × List StoreOp :=
  (match st name with
   | none => .ok none
   | some s =>
     if s = [] then .ok none
     else
       match loads s with
       | none => .error ()
       | some v => .ok (some v),
   [.get name])

/-- `clear_cookies` from `cookies_utils.py` (line 21). -/
def clear_cookies (st : Store) (name : PyStr) : Store × List StoreOp :=
  (storeDel st name, [.del name])

/- =================== whatsapp_service history helpers ================== -/

/-- The Redis key `"whatsapp_twilio_demo_{session_id}_history"`. -/
def historyKey (session_id : PyStr) : PyStr :=
  "whatsapp_twilio_demo_".data ++ session_id ++ "_history".data

/-- `_load_history` from `whatsapp_service.py` (line 48): `get_cookies`
with `or []`, a `json.loads` pass when the stored value is a string (undoing
the double encoding performed by `_save_history`), and a `try/except`
returning `[]` on any error.  The case of a string stored inside a string —
unreachable for data written by `_save_history`, where Python would return
the raw string in place of a list — is mapped to `[]`. -/
def load_history (st : Store) (session_id : PyStr) : List Turn × List StoreOp :=
  match get_cookies st (historyKey session_id) with
  | (.error _, ops) => ([], ops)
  | (.ok none, ops) => ([], ops)
  | (.ok (some (.turns ts)), ops) => (ts, ops)
  | (.ok (some (.str s)), ops) =>
    match loads s with
    | some (.turns ts) => (ts, ops)
    | some (.str _) => ([], ops)
    | none => ([], ops)

/-- `_save_history` from `whatsapp_service.py` (line 59): store
`json.dumps(history)` (a Python string) via `set_cookies`, which serializes
it a second time.  The store is assumed faithful, so the `try/except`
around the write never fires in this model. -/
def save_history (st : Store) (session_id : PyStr) (history : List Turn) :
    Store × List StoreOp :=
  set_cookies st (historyKey session_id) (.str (dumps (.turns history)))

/- ================ whatsapp_service.process_whatsapp_message ============ -/

/-- The external operations invoked by `process_whatsapp_message`, each as a
possibly-failing oracle (`none`/`.error` = the wrapped call raised). -/
structure Providers where
  /-- `detect_and_translate_to_english(text)` as called through
  `_safe_detect_translate_to_english`. -/
  detectTranslate : PyStr → Option (PyStr × Option PyStr)
  /-- `summarise_conversation(history)`. -/
  summarise : List Turn → Option PyStr
  /-- `rag_utils.answer_question(question, history_summary, chat_history)`. -/
  rag : PyStr → PyStr → Option (List Turn) → Option PyStr
  /-- `translate_back_to_source_gpt(question, text, code)`. -/
  translateGpt : PyStr → PyStr → PyStr → Option PyStr

/-- `_safe_detect_translate_to_english` from `whatsapp_service.py`
(line 17) at the `process_whatsapp_message` abstraction level: fall back to
`(text, "en")` when the wrapped call raises. -/
def safeDetectOracle (p : Providers) (text : PyStr) : PyStr × Option PyStr :=
  match p.detectTranslate text with
  | some r => r
  | none => (text, some "en".data)

/-- `_safe_translate` from `whatsapp_service.py` (line 26): empty text maps
to `""`, an absent or `"en"` target code is the identity, otherwise
`translate_back_to_source_gpt` with fallback to the untranslated text on an
exception. -/
def safe_translate (p : Providers) (text : PyStr) (target_language_code : Option PyStr)
    (question : PyStr) : PyStr :=
  if text = [] then []
  else
    match target_language_code with
    | none => text
    | some c =>
      if c = [] then text
      else if c = "en".data then text
      else
        match p.translateGpt question text c with
        | some out => out
        | none => text

/-- `_safe_answer_with_rag` from `whatsapp_service.py` (line 39). -/
def safe_answer_with_rag (p : Providers) (question : PyStr)
    (history_summary : PyStr) (chat_history : Option (List Turn)) : PyStr :=
  match p.rag question history_summary chat_history with
  | some r => r
  | none => "Final Answer: Please contact at [insert helpline]".data

/-- `process_whatsapp_message` from `whatsapp_service.py` (line 67).
Returns the response text, the store after the request, and the list of
key-value store operations performed, in order.  `message` is the result of
the `message or ""` normalization (a plain string); `session_id` is `none`
for a missing session. -/
def process_whatsapp_message (p : Providers) (st : Store)
    (message : PyStr) (session_id : Option PyStr) (enable_history : Bool) :
    PyStr × Store × List StoreOp :=
  let query := message
  let r := safeDetectOracle p query
  let query_english := r.1
  let source_lang := r.2
  let useHist := enable_history && pyTruthy session_id
  let sid := session_id.getD []
  let lh := if useHist then load_history st sid else ([], [])
  let history1 := if useHist then lh.1 ++ [⟨"user".data, query, none⟩] else []
  let hs := if useHist then
      match p.summarise history1 with
      | some s => (s, some history1)
      | none => ("Chat history disabled.".data, none)
    else ("Chat history disabled.".data, none)
  let history_summary := hs.1
  let chat_history_for_rag := hs.2
  let rag_response := safe_answer_with_rag p query_english history_summary chat_history_for_rag
  let chatbot_response := extract_final_answer rag_response
  let final_response := safe_translate p chatbot_response source_lang query
  let sv := if useHist then
      save_history st sid (history1 ++ [⟨"assistant".data, final_response, some rag_response⟩])
    else (st, [])
  (final_response, sv.1, lh.2 ++ sv.2)

/- ===================== codec round-trip lemmas ========================= -/

theorem expectLit_append (lit rest : PyStr) : expectLit lit (lit ++ rest) = some rest := by
  unfold expectLit
  rw [if_pos, List.drop_left]
  rw [List.isPrefixOf_iff_prefix]
  exact List.prefix_append lit rest

theorem expectLit_head_ne (a : Char) (l : PyStr) (c : Char) (s : PyStr) (h : a ≠ c) :
    expectLit (a :: l) (c :: s) = none := by
  unfold expectLit
  rw [if_neg]
  simp [List.isPrefixOf, h]

theorem parseStrBody_escBody (s rest : PyStr) :
    parseStrBody false (escBody s ++ '"' :: rest) = some (s, rest) := by
  induction s with
  | nil => simp [escBody, parseStrBody]
  | cons c cs ih =>
    by_cases h1 : c = '\\'
    · subst h1
      simp [escBody, escChar, parseStrBody, ih]
    · by_cases h2 : c = '"'
      · subst h2
        simp [escBody, escChar, parseStrBody, h1, ih]
      · simp [escBody, escChar, parseStrBody, h1, h2, ih]

theorem parseString_encStr (s rest : PyStr) :
    parseString (encStr s ++ rest) = some (s, rest) := by
  have : encStr s ++ rest = '"' :: (escBody s ++ '"' :: rest) := by
    simp [encStr]
  rw [this]
  simp [parseString, parseStrBody_escBody]

theorem parseTurn_encTurn (t : Turn) (rest : PyStr) :
    parseTurn (encTurn t ++ rest) = some (t, rest) := by
  cases t with
  | mk role content raw =>
    cases raw with
    | none =>
      have : encTurn ⟨role, content, none⟩ ++ rest =
          objHead ++ (encStr role ++ (contentSep ++ (encStr content ++ (closeObj ++ rest)))) := by
        simp [encTurn, List.append_assoc]
      rw [this]
      simp [parseTurn, expectLit_append, parseString_encStr]
    | some w =>
      have : encTurn ⟨role, content, some w⟩ ++ rest =
          objHead ++ (encStr role ++ (contentSep ++ (encStr content ++
            (rawSep ++ (encStr w ++ (closeObj ++ rest)))))) := by
        simp [encTurn, List.append_assoc]
      rw [this]
      have hne : expectLit closeObj (rawSep ++ (encStr w ++ (closeObj ++ rest))) = none := by
        simp only [closeObj, rawSep, List.cons_append]
        exact expectLit_head_ne _ _ _ _ (by decide)
      simp [parseTurn, expectLit_append, parseString_encStr, hne]

theorem parseTurnItems_joinTurns (ts : List Turn) (t : Turn) (rest : PyStr) (fuel : Nat)
    (hfuel : ts.length < fuel) :
    parseTurnItems fuel (joinTurns (t :: ts) ++ ']' :: rest) = some (t :: ts, rest) := by
  induction ts generalizing t rest fuel with
  | nil =>
    match fuel, hfuel with
    | f + 1, _ =>
      have hc : closeArr ++ rest = ']' :: rest := by simp [closeArr]
      simp [joinTurns, parseTurnItems, parseTurn_encTurn, ← hc, expectLit_append]
  | cons t2 ts2 ih =>
    match fuel, hfuel with
    | f + 1, hfuel =>
      have hin : joinTurns (t :: t2 :: ts2) ++ ']' :: rest =
          encTurn t ++ (',' :: ' ' :: (joinTurns (t2 :: ts2) ++ ']' :: rest)) := by
        simp [joinTurns, commaSp, List.append_assoc]
      have hne : expectLit closeArr (',' :: ' ' :: (joinTurns (t2 :: ts2) ++ ']' :: rest)) = none := by
        simp only [closeArr]
        exact expectLit_head_ne _ _ _ _ (by decide)
      have hcs : expectLit commaSp (',' :: ' ' :: (joinTurns (t2 :: ts2) ++ ']' :: rest)) =
          some (joinTurns (t2 :: ts2) ++ ']' :: rest) := by
        have : (',' :: ' ' :: (joinTurns (t2 :: ts2) ++ ']' :: rest)) =
            commaSp ++ (joinTurns (t2 :: ts2) ++ ']' :: rest) := by simp [commaSp]
        rw [this, expectLit_append]
      have hrec := ih t2 rest f (by simpa using Nat.lt_of_succ_lt_succ (Nat.lt_of_lt_of_le hfuel (Nat.le_refl _)))
      rw [hin]
      simp [parseTurnItems, parseTurn_encTurn, hne, hcs, hrec]

theorem encTurn_cons (t : Turn) : ∃ u, encTurn t = '\x7b' :: u := by
  refine ⟨(encStr "role".data ++ [':', ' ']) ++ encStr t.role ++ contentSep ++ encStr t.content ++
    (match t.raw_response with
     | none => closeObj
     | some w => rawSep ++ encStr w ++ closeObj), ?_⟩
  simp [encTurn, objHead, List.append_assoc]

theorem joinTurns_cons (t : Turn) (ts : List Turn) : ∃ u, joinTurns (t :: ts) = '\x7b' :: u := by
  obtain ⟨u, hu⟩ := encTurn_cons t
  cases ts with
  | nil => exact ⟨u, by simpa [joinTurns] using hu⟩
  | cons t2 ts2 =>
    exact ⟨u ++ commaSp ++ joinTurns (t2 :: ts2), by simp [joinTurns, hu, List.append_assoc]⟩

theorem length_le_joinTurns (t : Turn) (ts : List Turn) :
    ts.length ≤ (joinTurns (t :: ts)).length := by
  induction ts generalizing t with
  | nil => simp
  | cons t2 ts2 ih =>
    have h2 := ih t2
    obtain ⟨u, hu⟩ := encTurn_cons t
    simp only [joinTurns, List.length_append, List.length_cons]
    have : (encTurn t).length ≥ 1 := by rw [hu]; simp
    simp only [commaSp, List.length_cons, List.length_append] at *
    omega

theorem parseTurns_encTurns (ts : List Turn) (rest : PyStr) :
    parseTurns (encTurns ts ++ rest) = some (ts, rest) := by
  cases ts with
  | nil => simp [encTurns, joinTurns, closeArr, parseTurns]
  | cons t ts2 =>
    obtain ⟨u, hu⟩ := joinTurns_cons t ts2
    have hin : encTurns (t :: ts2) ++ rest = '[' :: (joinTurns (t :: ts2) ++ ']' :: rest) := by
      simp [encTurns, closeArr, List.append_assoc]
    rw [hin]
    have hfuel : ts2.length < (joinTurns (t :: ts2) ++ ']' :: rest).length := by
      have := length_le_joinTurns t ts2
      simp only [List.length_append, List.length_cons]
      omega
    have hitems := parseTurnItems_joinTurns ts2 t rest _ hfuel
    rw [hu] at hitems ⊢
    simp only [parseTurns, List.cons_append, if_true, eq_self_iff_true]
    rw [if_neg (by decide)]
    simp only [List.cons_append] at hitems
    simpa using hitems

theorem loads_dumps (v : PyVal) : loads (dumps v) = some v := by
  cases v with
  | str s =>
    have : dumps (.str s) = '"' :: (escBody s ++ '"' :: []) := by
      simp [dumps, encStr]
    rw [this]
    have hp := parseStrBody_escBody s []
    simp [loads, hp]
  | turns ts =>
    obtain ⟨w, hw⟩ : ∃ w, dumps (.turns ts) = '[' :: w := by
      exact ⟨joinTurns ts ++ closeArr, by simp [dumps, encTurns]⟩
    have hpt : parseTurns (dumps (.turns ts)) = some (ts, []) := by
      have := parseTurns_encTurns ts []
      simpa using this
    rw [hw] at hpt ⊢
    simp [loads, hpt]

/-- Saving a history and loading it back through the double JSON encoding
of `_save_history`/`set_cookies` and the double decoding of
`get_cookies`/`_load_history` recovers exactly the saved turns. -/
theorem load_save_history (st : Store) (sid : PyStr) (h : List Turn) :
    load_history (save_history st sid h).1 sid = (h, [.get (historyKey sid)]) := by
  have houter := loads_dumps (.str (dumps (.turns h)))
  have hinner := loads_dumps (.turns h)
  have hne : dumps (.str (dumps (.turns h))) ≠ [] := by
    simp [dumps, encStr]
  simp [load_history, save_history, set_cookies, get_cookies, storeSet, hne, houter, hinner]

/- ===================== shared helper lemmas ============================ -/

theorem takeLast_append_of_le (n : Nat) (pre h : List α) (hn : n ≤ h.length) :
    takeLast n (pre ++ h) = takeLast n h := by
  unfold takeLast
  have heq : pre.length + h.length - n = pre.length + (h.length - n) := by omega
  rw [List.length_append, heq, List.drop_append]

theorem renderLines_append (a b : List SummItem) :
    renderLines (a ++ b) = renderLines a ++ renderLines b := by
  induction a with
  | nil => simp [renderLines]
  | cons it rest ih => simp [renderLines, ih]

/- ========================= claim theorems ============================== -/

/-- C1: for every call to `answer_question` with an empty question string,
it immediately returns the fixed labeled response
`Final Answer: I didn\x27t receive a question to answer.` (apostrophe
written as an escape) and performs no
vector-store query and no LLM invocation (the event log is empty). -/
theorem answer_question_empty_guard
    (contextualizerEnabled : Bool) (ctx : PyStr → PyStr → PyStr)
    (search : PyStr → Nat → List PyStr)
    (chain : PyStr → PyStr → PyStr → PyStr → PyStr)
    (history_summary : Option PyStr) (chat_history : Option (List Turn)) :
    answer_question contextualizerEnabled ctx search chain [] history_summary chat_history =
      ("Final Answer: I didn\x27t receive a question to answer.".data, []) := by
  simp [answer_question]

/-- C2: for every input text and target language code, if the translation
provider call fails (the oracle returns `none`, modelling a raised
exception) or no provider is configured (`GOOGLE_PROJECT_ID` unset),
`translate_text` returns its input text unchanged; the function is total,
so no exception reaches its caller. -/
theorem translate_text_failure_is_identity (projectId : Option PyStr)
    (prov : PyStr → PyStr → Option PyStr) (text target : PyStr)
    (h : projectId = none ∨ prov text target = none) :
    translate_text projectId prov text target = text := by
  by_cases ht : text = []
  · subst ht; simp [translate_text]
  · rcases h with h | h
    · subst h; simp [translate_text, ht]
    · cases projectId with
      | none => simp [translate_text, ht]
      | some pid => simp [translate_text, ht, h]

/-- Witness for C2 at a concrete failing provider. -/
theorem translate_text_failure_is_identity_witness :
    translate_text (some "proj".data) (fun _ _ => none) "hola mundo".data "en".data =
      "hola mundo".data :=
  translate_text_failure_is_identity (some "proj".data) (fun _ _ => none)
    "hola mundo".data "en".data (Or.inr rfl)

/-- C3: saving a session history with `_save_history` (via `set_cookies`)
and loading it with `_load_history` (via `get_cookies`) yields exactly the
saved turns — identical role and content values in identical order — the
key-value store being modelled as faithfully returning the written bytes. -/
theorem history_store_round_trip (st : Store) (session_id : PyStr) (turns : List Turn) :
    (load_history (save_history st session_id turns).1 session_id).1 = turns := by
  rw [load_save_history]

/-- C4: `summarise_conversation` renders only the last 70 turns into the
conversation block sent to the LLM — its entire result, including the block
log, is unchanged by any turns prepended before a 70-turn tail — and it
returns the fixed sentinel `No prior conversation.` with no LLM call (an
empty block log) when the history is empty or contains no renderable
lines. -/
theorem summarise_window_and_sentinel :
    (∀ (llm : PyStr → PyStr) (pre h : List SummItem), 70 ≤ h.length →
      summarise_conversation llm (pre ++ h) = summarise_conversation llm h) ∧
    (∀ (llm : PyStr → PyStr) (h : List SummItem), h = [] ∨ renderLines h = [] →
      summarise_conversation llm h = ("No prior conversation.".data, [])) := by
  constructor
  · intro llm pre h hlen
    have hne : h ≠ [] := by
      intro e; subst e; simp at hlen
    have hne2 : pre ++ h ≠ [] := by simp [hne]
    unfold summarise_conversation
    rw [takeLast_append_of_le 70 pre h hlen]
    simp [List.isEmpty_iff, hne, hne2]
  · intro llm h hh
    rcases hh with hh | hh
    · subst hh; simp [summarise_conversation]
    · by_cases he : h = []
      · subst he; simp [summarise_conversation]
      · have htail : renderLines (takeLast 70 h) = [] := by
          have hsplit : h.take (h.length - 70) ++ takeLast 70 h = h := by
            unfold takeLast; rw [List.take_append_drop]
          rw [← hsplit, renderLines_append, List.append_eq_nil] at hh
          exact hh.2
        unfold summarise_conversation
        simp [List.isEmpty_iff, he, htail]

/-- Witness for C4: a 71st turn prepended before a 70-turn tail does not
change the summary, and the empty history yields the sentinel. -/
theorem summarise_window_and_sentinel_witness :
    summarise_conversation id
        (⟨some "user".data, some "old".data, none, none⟩ ::
          List.replicate 70 ⟨some "user".data, some "hi".data, none, none⟩) =
      summarise_conversation id
        (List.replicate 70 ⟨some "user".data, some "hi".data, none, none⟩) ∧
    summarise_conversation id [] = ("No prior conversation.".data, []) :=
  ⟨summarise_window_and_sentinel.1 id [⟨some "user".data, some "old".data, none, none⟩]
      (List.replicate 70 ⟨some "user".data, some "hi".data, none, none⟩) (by simp),
   summarise_window_and_sentinel.2 id [] (Or.inl rfl)⟩

/-- C6: for a session whose key is absent from the store, the history fetch
returns the empty turn list and `get_cookies` signals no error (it returns
`Except.ok none`, not `Except.error`). -/
theorem load_history_missing_key (st : Store) (session_id : PyStr)
    (h : st (historyKey session_id) = none) :
    load_history st session_id = ([], [.get (historyKey session_id)]) ∧
    get_cookies st (historyKey session_id) = (.ok none, [.get (historyKey session_id)]) := by
  unfold load_history get_cookies
  simp [h]

/-- Witness for C6 on the empty store. -/
theorem load_history_missing_key_witness :
    load_history (fun _ => none) "whx".data = ([], [.get (historyKey "whx".data)]) ∧
    get_cookies (fun _ => none) (historyKey "whx".data) =
      (.ok none, [.get (historyKey "whx".data)]) :=
  load_history_missing_key (fun _ => none) "whx".data rfl

/-- C7: both translate-back variants return the answer text unchanged
whenever the source language code is the working language `"en"` or is
absent (`None`), for every answer text and original question. -/
theorem translate_back_identity_on_working_language
    (llm : PyStr → PyStr → Except Unit (Option PyStr))
    (projectId : Option PyStr) (prov : PyStr → PyStr → Option PyStr)
    (question answer : PyStr) (code : Option PyStr)
    (h : code = none ∨ code = some "en".data) :
    translate_back_to_source projectId prov answer code = answer ∧
    translate_back_to_source_gpt llm projectId prov question answer code = answer := by
  have hen : ("en".data : PyStr) ≠ [] := by decide
  by_cases ha : answer = [] <;>
    rcases h with h | h <;> subst h <;>
      simp [translate_back_to_source, translate_back_to_source_gpt, ha, hen]

/-- Witness for C7 at concrete inputs, covering both the absent and the
`"en"` code. -/
theorem translate_back_identity_on_working_language_witness :
    (translate_back_to_source none (fun _ _ => none) "the answer".data none = "the answer".data ∧
      translate_back_to_source_gpt (fun _ _ => .error ()) none (fun _ _ => none)
        "the question".data "the answer".data none = "the answer".data) ∧
    (translate_back_to_source none (fun _ _ => none) "the answer".data (some "en".data) =
        "the answer".data ∧
      translate_back_to_source_gpt (fun _ _ => .error ()) none (fun _ _ => none)
        "the question".data "the answer".data (some "en".data) = "the answer".data) :=
  ⟨translate_back_identity_on_working_language (fun _ _ => .error ()) none (fun _ _ => none)
      "the question".data "the answer".data none (Or.inl rfl),
   translate_back_identity_on_working_language (fun _ _ => .error ()) none (fun _ _ => none)
      "the question".data "the answer".data (some "en".data) (Or.inr rfl)⟩

/-- C8: when language detection returns unknown (`None`), both
`detect_and_translate_to_english` and its safe wrapper still return a
`(text, code)` pair, with the code component always the single configured
fallback `"ur"`. -/
theorem detect_unknown_uses_fallback_code (useGptForward : Bool)
    (detect : PyStr → Option PyStr) (gptFwd : PyStr → Except Unit PyStr)
    (projectId : Option PyStr) (prov : PyStr → PyStr → Option PyStr)
    (text : PyStr) (h : detect text = none) :
    (detect_and_translate_to_english useGptForward detect gptFwd projectId prov text).2 =
      some "ur".data ∧
    (safe_detect_translate_to_english useGptForward detect gptFwd projectId prov text).2 =
      some "ur".data := by
  have hur : ("ur".data : PyStr) ≠ "en".data := by decide
  unfold safe_detect_translate_to_english detect_and_translate_to_english
  cases hg : gptFwd text <;> cases useGptForward <;> simp [h, hur, hg]

/-- Witness for C8 with a failing detector. -/
theorem detect_unknown_uses_fallback_code_witness :
    (detect_and_translate_to_english true (fun _ => none) (fun _ => .error ())
        none (fun _ _ => none) "salam".data).2 = some "ur".data ∧
    (safe_detect_translate_to_english true (fun _ => none) (fun _ => .error ())
        none (fun _ _ => none) "salam".data).2 = some "ur".data :=
  detect_unknown_uses_fallback_code true (fun _ => none) (fun _ => .error ())
    none (fun _ _ => none) "salam".data rfl

/- ===================== C10 helper lemmas =============================== -/

theorem finalMarker_not_isPrefixOf_nil : finalMarker.isPrefixOf ([] : PyStr) = false := by
  decide

theorem splitOnceFinal_eq_none (s : PyStr)
    (h : ∀ j, finalMarker.isPrefixOf (s.drop j) = false) :
    splitOnceFinal s = none := by
  induction s with
  | nil => rfl
  | cons c cs ih =>
    have h0 := h 0
    simp only [List.drop_zero] at h0
    have hrest : ∀ j, finalMarker.isPrefixOf (cs.drop j) = false := by
      intro j
      have := h (j + 1)
      simpa using this
    simp [splitOnceFinal, h0, ih hrest]

theorem splitOnceFinal_first_occurrence (s : PyStr) (i : Nat)
    (hi : finalMarker.isPrefixOf (s.drop i) = true)
    (hmin : ∀ j, j < i → finalMarker.isPrefixOf (s.drop j) = false) :
    splitOnceFinal s = some (s.take i, s.drop (i + finalMarker.length)) := by
  induction s generalizing i with
  | nil =>
    rw [List.drop_nil] at hi
    rw [finalMarker_not_isPrefixOf_nil] at hi
    exact absurd hi (by simp)
  | cons c cs ih =>
    cases i with
    | zero =>
      simp only [List.drop_zero] at hi
      simp [splitOnceFinal, hi]
    | succ k =>
      have h0 : finalMarker.isPrefixOf (c :: cs) = false := by
        have := hmin 0 (Nat.succ_pos k)
        simpa using this
      have hik : finalMarker.isPrefixOf (cs.drop k) = true := by
        simpa using hi
      have hmink : ∀ j, j < k → finalMarker.isPrefixOf (cs.drop j) = false := by
        intro j hj
        have := hmin (j + 1) (Nat.succ_lt_succ hj)
        simpa using this
      have hrec := ih k hik hmink
      have harith : k + 1 + finalMarker.length = (k + finalMarker.length) + 1 := by omega
      simp [splitOnceFinal, h0, hrec, harith]

/-- C10: for every string `s`, `_extract_final_answer s` equals the
whitespace-stripped text after the first occurrence of the marker
`Final Answer:` when the marker occurs in `s` (at first position `i`), and
equals the whitespace-stripped `s` when the marker occurs nowhere in `s`;
the function is total, so it never raises. -/
theorem extract_final_answer_spec (s : PyStr) :
    (∀ i, finalMarker.isPrefixOf (s.drop i) = true →
      (∀ j, j < i → finalMarker.isPrefixOf (s.drop j) = false) →
      extract_final_answer s = pyStrip (s.drop (i + finalMarker.length))) ∧
    ((∀ j, j < s.length → finalMarker.isPrefixOf (s.drop j) = false) →
      extract_final_answer s = pyStrip s) := by
  constructor
  · intro i hi hmin
    rw [extract_final_answer, splitOnceFinal_first_occurrence s i hi hmin]
  · intro h
    have hall : ∀ j, finalMarker.isPrefixOf (s.drop j) = false := by
      intro j
      by_cases hj : j < s.length
      · exact h j hj
      · rw [List.drop_eq_nil_of_le (by omega)]
        exact finalMarker_not_isPrefixOf_nil
    rw [extract_final_answer, splitOnceFinal_eq_none s hall]

/-- Witness for C10: a string with the marker at first position 3 (and a
second occurrence later), and a marker-free string. -/
theorem extract_final_answer_spec_witness :
    extract_final_answer "xy Final Answer:  ok Final Answer: z ".data =
      pyStrip ("xy Final Answer:  ok Final Answer: z ".data.drop (3 + finalMarker.length)) ∧
    extract_final_answer "  no marker here ".data = pyStrip "  no marker here ".data :=
  ⟨(extract_final_answer_spec "xy Final Answer:  ok Final Answer: z ".data).1 3
      (by decide) (by decide),
   (extract_final_answer_spec "  no marker here ".data).2 (by decide)⟩

/-- C9: when history is disabled (`enable_history=False`) or no session id
is present (a `None` or empty session id), `process_whatsapp_message`
performs no operation on the key-value store — the operation log is empty —
and the store is unchanged. -/
theorem process_disabled_history_no_store_access (p : Providers) (st : Store)
    (message : PyStr) (session_id : Option PyStr) (enable_history : Bool)
    (h : enable_history = false ∨ session_id = none ∨ session_id = some ([] : PyStr)) :
    (process_whatsapp_message p st message session_id enable_history).2.2 = [] ∧
    (process_whatsapp_message p st message session_id enable_history).2.1 = st := by
  have huse : (enable_history && pyTruthy session_id) = false := by
    rcases h with h | h | h <;> subst h <;> simp [pyTruthy]
  unfold process_whatsapp_message
  simp [huse]

/-- Witness for C9 with history disabled on a concrete request. -/
theorem process_disabled_history_no_store_access_witness :
    (process_whatsapp_message
        ⟨fun _ => none, fun _ => none, fun _ _ _ => none, fun _ _ _ => none⟩
        (fun _ => none) "hello".data (some "s1".data) false).2.2 = [] ∧
    (process_whatsapp_message
        ⟨fun _ => none, fun _ => none, fun _ _ _ => none, fun _ _ _ => none⟩
        (fun _ => none) "hello".data (some "s1".data) false).2.1 = (fun _ => none) :=
  process_disabled_history_no_store_access
    ⟨fun _ => none, fun _ => none, fun _ _ _ => none, fun _ _ _ => none⟩
    (fun _ => none) "hello".data (some "s1".data) false (Or.inl rfl)

/-- C5: a completed `process_whatsapp_message` request with history enabled
and a (truthy) session id persists exactly the loaded history with two
turns appended in order — the user turn carrying the inbound message, then
the assistant turn carrying the returned response — so the stored history
length grows by exactly 2 and no existing entry is reordered or deleted. -/
theorem process_appends_exactly_two_turns (p : Providers) (st : Store)
    (message : PyStr) (session_id : PyStr) (h : session_id ≠ []) :
    ∃ raw,
      (load_history (process_whatsapp_message p st message (some session_id) true).2.1
          session_id).1 =
        (load_history st session_id).1 ++
          [⟨"user".data, message, none⟩,
           ⟨"assistant".data,
             (process_whatsapp_message p st message (some session_id) true).1, raw⟩] ∧
      (load_history (process_whatsapp_message p st message (some session_id) true).2.1
          session_id).1.length =
        (load_history st session_id).1.length + 2 := by
  have huse : (true && pyTruthy (some session_id)) = true := by
    simp [pyTruthy, h]
  unfold process_whatsapp_message
  simp only [huse, if_true, Option.getD_some]
  simp only [load_save_history]
  simp [List.append_assoc]

/-- Witness for C5 on a concrete request against the empty store. -/
theorem process_appends_exactly_two_turns_witness :
    ∃ raw,
      (load_history (process_whatsapp_message
          ⟨fun t => some (t, some "en".data), fun _ => some "sum".data,
            fun _ _ _ => some "Final Answer: ok".data, fun _ _ _ => none⟩
          (fun _ => none) "hi".data (some "s1".data) true).2.1 "s1".data).1 =
        (load_history (fun _ => none) "s1".data).1 ++
          [⟨"user".data, "hi".data, none⟩,
            ⟨"assistant".data, (process_whatsapp_message
              ⟨fun t => some (t, some "en".data), fun _ => some "sum".data,
                fun _ _ _ => some "Final Answer: ok".data, fun _ _ _ => none⟩
              (fun _ => none) "hi".data (some "s1".data) true).1, raw⟩] ∧
      (load_history (process_whatsapp_message
          ⟨fun t => some (t, some "en".data), fun _ => some "sum".data,
            fun _ _ _ => some "Final Answer: ok".data, fun _ _ _ => none⟩
          (fun _ => none) "hi".data (some "s1".data) true).2.1 "s1".data).1.length =
        (load_history (fun _ => none) "s1".data).1.length + 2 :=
  process_appends_exactly_two_turns
    ⟨fun t => some (t, some "en".data), fun _ => some "sum".data,
      fun _ _ _ => some "Final Answer: ok".data, fun _ _ _ => none⟩
    (fun _ => none) "hi".data "s1".data (by decide)
